import Mathlib

/-!
Shallow embedding of the Memory-Augmented Routing Core of `src/main.py`
(`Application._generate_embedding`, lines 85-95, and
`Application.process_request`, lines 97-141).

The external collaborators (CLIP encoders, MemoryPool, agents, metrics
reporter) are injected as an `Env` of possibly-failing functions, exactly as
they appear at the call sites of `process_request`.  Every collaborator
invocation is logged as an `Event`, so that claims about which collaborator is
called, and with which arguments, are statable.  Python exceptions are
modelled by `Except Exn`; `except KeyError` and `except Exception` correspond
to the two `Exn` constructors.
-/

set_option autoImplicit false

namespace RoutingCore

/-- An embedding vector (`list[float]` in the source; the components play no
algorithmic role in `main.py`, so they are abstracted to `Int`).  Python
truthiness of a list is emptiness, which the model keeps. -/
abbrev Embedding := List Int

/-- A payload returned by `MemoryPool.retrieve` (opaque collaborator data). -/
abbrev Payload := List (String × String)

/-- A value of a result/response mapping: `process_request` returns dicts
whose values are strings (error messages, request ids) or numbers (`500`). -/
inductive RVal where
  | str (s : String)
  | num (n : Nat)
deriving DecidableEq

/-- The result-mapping returned by an agent's `arun`; on success it is also
the response of `process_request`, returned unchanged (line 132). -/
abbrev ResultV := List (String × RVal)

/-- The response of `process_request`: a mapping (success result, or one of
the two error dicts of lines 134 and 137-141). -/
abbrev Response := List (String × RVal)

/-- A value of the `input` dict passed to `arun` (lines 115-118): the query
string or the (empty) intermediate-step list. -/
inductive AVal where
  | str (s : String)
  | steps (l : List String)
deriving DecidableEq

/-- The `input` dict passed to `arun`. -/
abbrev AgentInput := List (String × AVal)

/-- A Python exception: `KeyError(k)` (caught separately on line 133) or any
other exception carrying a message (caught on line 135). -/
inductive Exn where
  | keyError (k : String)
  | other (msg : String)
deriving DecidableEq

instance {ε α : Type} [DecidableEq ε] [DecidableEq α] : DecidableEq (Except ε α) :=
  fun x y =>
  match x, y with
  | .error a, .error b =>
      if h : a = b then .isTrue (congrArg Except.error h)
      else .isFalse (fun hh => h (Except.error.inj hh))
  | .ok a, .ok b =>
      if h : a = b then .isTrue (congrArg Except.ok h)
      else .isFalse (fun hh => h (Except.ok.inj hh))
  | .error _, .ok _ => .isFalse (fun hh => Except.noConfusion hh)
  | .ok _, .error _ => .isFalse (fun hh => Except.noConfusion hh)

/-- The three agent instances built by `_init_agents` (lines 71-77). -/
inductive Agent where
  | marketing
  | operation
  | research
deriving DecidableEq

/-- `type(agent).__name__` for the three instances (classes imported on
line 6 of the source). -/
def Agent.className : Agent → String
  | .marketing => "MarketingAgent"
  | .operation => "OperationAgent"
  | .research  => "ResearchAgent"

/-- One logged collaborator invocation, with the arguments of the call. -/
inductive Event where
  | encodeImage (url : String)
  | encodeText (t : String)
  | retrieve (e : Embedding)
  | arun (a : Agent) (input : AgentInput)
  | store (e : Embedding) (query : String) (result : ResultV)
  | recordRouting (matched : Bool)
deriving DecidableEq

/-- The external collaborators, as seen from `process_request`.  `store`
takes the two components of the payload dict
`{"query": request["text"], "result": result}` (lines 122-125). -/
structure Env where
  encodeImage : String → Except Exn Embedding
  encodeText : String → Except Exn Embedding
  retrieve : Embedding → Except Exn (List Payload)
  arun : Agent → AgentInput → Except Exn ResultV
  store : Embedding → String → ResultV → Except Exn Unit
  recordRouting : Bool → Except Exn Unit

/-- An inbound request: a string-valued mapping with optional keys `type`,
`text`, `image_url` (spec section 6). -/
abbrev Request := List (String × String)

/-- Python `value := request.get(k)` used as a truth test (walrus operators,
lines 88 and 90): `some v` iff the key is present with a non-empty value
(`None` and the empty string are both falsy). -/
def truthyGet (k : String) (r : Request) : Option String :=
  match r.lookup k with
  | some v => if v = "" then none else some v
  | none => none

/-- `Application._generate_embedding` (lines 85-95): try the image path, else
the text path, else `None`; the surrounding `try/except` converts any encoder
exception to `None`.  Also returns the encoder invocations performed. -/
def generateEmbedding (env : Env) (r : Request) : Option Embedding × List Event :=
  match truthyGet "image_url" r with
  | some url =>
      (match env.encodeImage url with
       | .ok e => some e
       | .error _ => none,
       [Event.encodeImage url])
  | none =>
      match truthyGet "text" r with
      | some t =>
          (match env.encodeText t with
           | .ok e => some e
           | .error _ => none,
           [Event.encodeText t])
      | none => (none, [])

/-- `request.get("type", "marketing")` (line 110). -/
def agentTypeOf (r : Request) : String := (r.lookup "type").getD "marketing"

/-- `self.agents.get(agent_type)` over the fixed map of `_init_agents`. -/
def agentsGet (k : String) : Option Agent :=
  if k = "marketing" then some .marketing
  else if k = "operation" then some .operation
  else if k = "research" then some .research
  else none

/-- `self.agents.get(agent_type, self.agents["marketing"])` (line 111). -/
def selectAgent (k : String) : Agent := (agentsGet k).getD .marketing

/-- The `input` dict of the `arun` call (lines 115-118): exactly the keys
`query` and `intermediate_steps`. -/
def arunInput (text : String) : AgentInput :=
  [("query", AVal.str text), ("intermediate_steps", AVal.steps [])]

/-- Python `str.lower` on an ASCII character (the strings involved are
ASCII). -/
def lowerChar (c : Char) : Char :=
  if 65 ≤ c.toNat ∧ c.toNat ≤ 90 then Char.ofNat (c.toNat + 32) else c

/-- Python `str.lower`. -/
def strLower (s : String) : String := String.mk (s.data.map lowerChar)

/-- A character removed by Python `str.strip()`. -/
def pySpace (c : Char) : Bool :=
  c = ' ' || c = '\t' || c = '\n' || c = '\x0d' || c = '\x0b' || c = '\x0c'

/-- Python `str.strip()`: drop leading and trailing whitespace. -/
def strStrip (s : String) : String :=
  String.mk (((s.data.dropWhile pySpace).reverse.dropWhile pySpace).reverse)

/-- Lines 128-130: `expected_type = agent_type.lower()`,
`actual_type = type(selected_agent).__name__.lower()`, compared with `==`. -/
def routingMatched (k : String) : Bool :=
  strLower k == strLower (selectAgent k).className

/-- The body of the `try:` block of `process_request` (lines 99-132),
returning the successful result or the first exception raised, together with
the collaborator invocations performed (in order).  Notes kept from the
source: line 106 calls `retrieve` only when the embedding is *truthy*
(non-`None` and non-empty) and binds the result into a `context` dict that is
never used afterwards; line 116 `request["text"]` raises `KeyError('text')`
when the key is missing; line 121 guards the store with `is not None`
(not truthiness) on the embedding and truthiness on the result. -/
def processBody (env : Env) (r : Request) : Except Exn ResultV × List Event :=
  match generateEmbedding env r with
  | (embedding, ev1) =>
    match (match embedding with
           | some (x :: xs) => (env.retrieve (x :: xs), [Event.retrieve (x :: xs)])
           | _ => ((Except.ok [] : Except Exn (List Payload)), ([] : List Event))) with
    | (retrieved, ev2) =>
      match retrieved with
      | .error ex => (.error ex, ev1 ++ ev2)
      | .ok _memoryContext =>
        match r.lookup "text" with
        | none => (.error (Exn.keyError "text"), ev1 ++ ev2)
        | some text =>
          match env.arun (selectAgent (agentTypeOf r)) (arunInput text) with
          | .error ex =>
              (.error ex,
               ev1 ++ ev2 ++ [Event.arun (selectAgent (agentTypeOf r)) (arunInput text)])
          | .ok result =>
            match (match embedding, result with
                   | some e, p :: ps =>
                       (env.store e text (p :: ps),
                        ev1 ++ ev2 ++ [Event.arun (selectAgent (agentTypeOf r)) (arunInput text)]
                          ++ [Event.store e text (p :: ps)])
                   | _, _ =>
                       ((Except.ok () : Except Exn Unit),
                        ev1 ++ ev2 ++ [Event.arun (selectAgent (agentTypeOf r)) (arunInput text)])) with
            | (stored, ev4) =>
              match stored with
              | .error ex => (.error ex, ev4)
              | .ok _ =>
                match env.recordRouting (routingMatched (agentTypeOf r)) with
                | .error ex =>
                    (.error ex, ev4 ++ [Event.recordRouting (routingMatched (agentTypeOf r))])
                | .ok _ =>
                    (.ok result, ev4 ++ [Event.recordRouting (routingMatched (agentTypeOf r))])

/-- Hex digit characters. -/
def hexChar (d : Nat) : Char := "0123456789abcdef".toList.getD d '0'

/-- The `k` least-significant base-16 digits of `n`, least significant first. -/
def hexDigitsLE : Nat → Nat → List Nat
  | 0, _ => []
  | k + 1, n => n % 16 :: hexDigitsLE k (n / 16)

/-- Recombine little-endian base-16 digits. -/
def undigits : List Nat → Nat
  | [] => 0
  | d :: ds => d + 16 * undigits ds

/-- Modelled from the spec: `uuid.uuid4().hex` (line 140) is a freshly
generated unique identifier rendered as 32 hexadecimal characters; the
randomness source is external, so it is modelled as an injected fresh seed
rendered in base 16. -/
def uuidHex (n : Nat) : String := String.mk (((hexDigitsLE 32 n).map hexChar).reverse)

/-- The generic busy message of line 138. -/
def busyMessage : String := "系统繁忙，请稍后重试"

/-- The f-string of line 134; `str(KeyError(k))` is `k` wrapped in single
quotation marks. -/
def keyErrorMessage (k : String) : String := "无效的Agent类型: " ++ "\x27" ++ k ++ "\x27"

/-- The uniform error dict of lines 137-141. -/
def busyResponse (seed : Nat) : Response :=
  [("error", RVal.str busyMessage), ("code", RVal.num 500),
   ("request_id", RVal.str (uuidHex seed))]

/-- `Application.process_request` (lines 97-141): run the body; a `KeyError`
yields the dict of line 134, any other exception the dict of lines 137-141. -/
def processRequest (env : Env) (seed : Nat) (r : Request) : Response × List Event :=
  match processBody env r with
  | (.ok result, evs) => (result, evs)
  | (.error (Exn.keyError k), evs) => ([("error", RVal.str (keyErrorMessage k))], evs)
  | (.error (Exn.other _), evs) => (busyResponse seed, evs)

/-! ### Concrete collaborators and requests used as test inputs -/

/-- A non-empty result returned by a succeeding agent run. -/
def okResult : ResultV := [("answer", RVal.str "ok")]

/-- Collaborators that all succeed; `retrieve` finds one past record. -/
def envOk : Env :=
  { encodeImage := fun _ => .ok [7]
    encodeText := fun _ => .ok [1]
    retrieve := fun _ => .ok [[("past", "p")]]
    arun := fun _ _ => .ok okResult
    store := fun _ _ _ => .ok ()
    recordRouting := fun _ => .ok () }

/-- Like `envOk` but agent execution raises a `KeyError`. -/
def envArunKeyError : Env := { envOk with arun := fun _ _ => .error (Exn.keyError "boom") }

/-- Like `envOk` but agent execution raises a generic exception. -/
def envArunBoom : Env := { envOk with arun := fun _ _ => .error (Exn.other "boom") }

/-- Like `envOk` but both encoders raise. -/
def envEncFail : Env :=
  { envOk with
      encodeImage := fun _ => .error (Exn.other "net")
      encodeText := fun _ => .error (Exn.other "net") }

/-- A well-formed marketing request. -/
def reqMarketing : Request := [("type", "marketing"), ("text", "hi")]

/-- A request with no `text` field. -/
def reqNoText : Request := [("type", "marketing")]

/-- A request whose `image_url` key is present but empty. -/
def reqEmptyImage : Request := [("image_url", ""), ("text", "hi")]

/-- A request whose type key is the lower-cased class name of the fallback
agent; it is absent from the agent map. -/
def reqSpoof : Request := [("type", "marketingagent"), ("text", "hi")]

/-! ### Helper lemmas about the fresh request identifier -/

theorem hexDigitsLE_length (k n : Nat) : (hexDigitsLE k n).length = k := by
  induction k generalizing n with
  | zero => rfl
  | succ k ih => simp [hexDigitsLE, ih]

theorem hexDigitsLE_lt (k n : Nat) : ∀ d ∈ hexDigitsLE k n, d < 16 := by
  induction k generalizing n with
  | zero => intro d hd; simp [hexDigitsLE] at hd
  | succ k ih =>
    intro d hd
    simp only [hexDigitsLE, List.mem_cons] at hd
    rcases hd with h | h
    · subst h; exact Nat.mod_lt _ (by omega)
    · exact ih _ d h

theorem undigits_hexDigitsLE (k n : Nat) (h : n < 16 ^ k) :
    undigits (hexDigitsLE k n) = n := by
  induction k generalizing n with
  | zero => simp [hexDigitsLE, undigits]; omega
  | succ k ih =>
    have hdiv : n / 16 < 16 ^ k := by
      rw [Nat.div_lt_iff_lt_mul (by omega)]
      calc n < 16 ^ (k + 1) := h
        _ = 16 ^ k * 16 := by ring
    simp only [hexDigitsLE, undigits, ih (n / 16) hdiv]
    omega

theorem hexDigitsLE_inj (k a b : Nat) (ha : a < 16 ^ k) (hb : b < 16 ^ k)
    (h : hexDigitsLE k a = hexDigitsLE k b) : a = b := by
  have := undigits_hexDigitsLE k a ha
  have := undigits_hexDigitsLE k b hb
  rw [← undigits_hexDigitsLE k a ha, ← undigits_hexDigitsLE k b hb, h]

theorem hexChar_inj : ∀ d₁ < 16, ∀ d₂ < 16, hexChar d₁ = hexChar d₂ → d₁ = d₂ := by
  decide

theorem map_hexChar_inj : ∀ l₁ l₂ : List Nat, (∀ d ∈ l₁, d < 16) → (∀ d ∈ l₂, d < 16) →
    l₁.map hexChar = l₂.map hexChar → l₁ = l₂ := by
  intro l₁
  induction l₁ with
  | nil => intro l₂ _ _ h; cases l₂ <;> simp_all
  | cons d ds ih =>
    intro l₂ h₁ h₂ h
    cases l₂ with
    | nil => simp at h
    | cons e es =>
      simp only [List.map_cons, List.cons.injEq] at h
      have hd : d = e :=
        hexChar_inj d (h₁ d (List.mem_cons_self d ds)) e (h₂ e (List.mem_cons_self e es)) h.1
      have hds : ds = es :=
        ih es (fun x hx => h₁ x (List.mem_cons_of_mem _ hx))
          (fun x hx => h₂ x (List.mem_cons_of_mem _ hx)) h.2
      rw [hd, hds]

theorem uuidHex_length (n : Nat) : (uuidHex n).length = 32 := by
  simp [uuidHex, String.length, hexDigitsLE_length]

theorem hexChar_mem_alphabet : ∀ d < 16, hexChar d ∈ "0123456789abcdef".data := by
  decide

theorem uuidHex_chars (n : Nat) :
    ∀ c ∈ (uuidHex n).data, c ∈ "0123456789abcdef".data := by
  intro c hc
  simp only [uuidHex, String.mk, List.mem_reverse, List.mem_map] at hc
  obtain ⟨d, hd, hdc⟩ := hc
  have hlt : d < 16 := hexDigitsLE_lt 32 n d hd
  subst hdc
  exact hexChar_mem_alphabet d hlt

theorem uuidHex_inj (a b : Nat) (ha : a < 16 ^ 32) (hb : b < 16 ^ 32)
    (h : uuidHex a = uuidHex b) : a = b := by
  have hdata : (((hexDigitsLE 32 a).map hexChar).reverse : List Char)
      = ((hexDigitsLE 32 b).map hexChar).reverse := congrArg String.data h
  have hmap := List.reverse_injective hdata
  exact hexDigitsLE_inj 32 a b ha hb
    (map_hexChar_inj _ _ (fun d hd => hexDigitsLE_lt 32 a d hd)
      (fun d hd => hexDigitsLE_lt 32 b d hd) hmap)

/-! ### Structural lemmas about the orchestrator -/

/-- The error handlers of lines 133-141 only replace the response; the
collaborator invocations already performed are those of the `try` body. -/
theorem processRequest_events (env : Env) (seed : Nat) (r : Request) :
    (processRequest env seed r).2 = (processBody env r).2 := by
  unfold processRequest
  rcases h : processBody env r with ⟨ex | res, evs⟩
  · rcases ex with k | m <;> rfl
  · rfl

/-- The embedding step invokes encoders only. -/
theorem generateEmbedding_no_store (env : Env) (r : Request)
    (e : Embedding) (q : String) (res : ResultV) :
    Event.store e q res ∉ (generateEmbedding env r).2 := by
  unfold generateEmbedding
  rcases truthyGet "image_url" r with _ | url
  · rcases truthyGet "text" r with _ | t
    · simp
    · simp
  · simp

/-! ### Claim theorems -/

/-- C1: the claim says that for every mapped type key the selected agent is
the mapped one and the recorded RoutingOutcome has `matched = true`.  The
selection part holds, but lines 128-130 compare the lower-cased type key with
the lower-cased *class name* of the selected agent (`"marketing"` vs
`"marketingagent"`), so `matched` is `false` for every mapped key: on the
request `{type: "marketing", text: "hi"}` with succeeding collaborators the
metrics collaborator is handed `false`, never `true`. -/
theorem c1_routing_metric_always_false :
    selectAgent "marketing" = Agent.marketing
    ∧ selectAgent "operation" = Agent.operation
    ∧ selectAgent "research" = Agent.research
    ∧ routingMatched "marketing" = false
    ∧ routingMatched "operation" = false
    ∧ routingMatched "research" = false
    ∧ Event.recordRouting false ∈ (processRequest envOk 0 reqMarketing).2
    ∧ Event.recordRouting true ∉ (processRequest envOk 0 reqMarketing).2 := by
  decide

/-- C2: the claim says agent execution receives `{query text, retrieved
memory, empty intermediate-step trace}`.  On `{type: "marketing", text:
"hi"}` the memory-join step does retrieve a record (the `retrieve` event),
but the `input` dict of the `arun` call (lines 115-118) has exactly the keys
`query` and `intermediate_steps` — the retrieved memory is bound into the
unused local `context` (lines 104-107) and never passed to the agent. -/
theorem c2_memory_not_in_arun_input :
    Event.retrieve [1] ∈ (processRequest envOk 0 reqMarketing).2
    ∧ Event.arun Agent.marketing (arunInput "hi") ∈ (processRequest envOk 0 reqMarketing).2
    ∧ (arunInput "hi").lookup "query" = some (AVal.str "hi")
    ∧ (arunInput "hi").lookup "intermediate_steps" = some (AVal.steps [])
    ∧ (arunInput "hi").lookup "memory" = none := by
  decide

/-- C3 counterexample: an exception (a `KeyError`) raised by the agent
execution collaborator does *not* produce the uniform
`{error, code: 500, request_id}` response: it is intercepted by the
`except KeyError` branch of line 133, which returns only
`{error: "无效的Agent类型: 'boom'"}` — no `code`, no `request_id`. -/
theorem c3_keyerror_not_uniform :
    (processBody envArunKeyError reqMarketing).1 = Except.error (Exn.keyError "boom")
    ∧ (processRequest envArunKeyError 0 reqMarketing).1
        = [("error", RVal.str (keyErrorMessage "boom"))]
    ∧ ((processRequest envArunKeyError 0 reqMarketing).1).lookup "code" = none
    ∧ ((processRequest envArunKeyError 0 reqMarketing).1).lookup "request_id" = none := by
  decide

/-- C4: the claim says a missing `text` field is surfaced through the generic
`{error, code: 500, request_id}` response.  In the code, `request["text"]`
(line 116) raises `KeyError('text')`, which the `except KeyError` handler of
lines 133-134 turns into `{error: "无效的Agent类型: 'text'"}` — an
"invalid agent type" message with neither `code` nor `request_id`; no
collaborator is invoked at all. -/
theorem c4_missing_text_keyerror_response :
    (processRequest envOk 0 reqNoText).1 = [("error", RVal.str (keyErrorMessage "text"))]
    ∧ keyErrorMessage "text" = "无效的Agent类型: 'text'"
    ∧ ((processRequest envOk 0 reqNoText).1).lookup "code" = none
    ∧ ((processRequest envOk 0 reqNoText).1).lookup "request_id" = none
    ∧ (processRequest envOk 0 reqNoText).2 = [] := by
  decide

/-- C5 counterexample: on `{image_url: "", text: "hi"}` the `image_url` field
is present, yet the walrus/truthiness test of line 88 treats the empty string
as absent and the text encoder (not the image encoder) is invoked. -/
theorem c5_empty_image_url_takes_text_path :
    reqEmptyImage.lookup "image_url" = some ""
    ∧ (generateEmbedding envOk reqEmptyImage).2 = [Event.encodeText "hi"] := by
  decide

/-- C7 counterexample: `"marketingagent"` is absent from the agent map, so
selection falls back to the marketing agent, but the recorded RoutingOutcome
has `matched = true` (not `false` as claimed), because lines 128-130 compare
the key against the lower-cased class name `MarketingAgent`. -/
theorem c7_spoofed_type_matched_true :
    agentsGet "marketingagent" = none
    ∧ selectAgent "marketingagent" = Agent.marketing
    ∧ routingMatched "marketingagent" = true
    ∧ Event.recordRouting true ∈ (processRequest envOk 0 reqSpoof).2 := by
  decide

/-- C8 counterexample: `"Operation"` differs from the mapped key
`"operation"` only in letter case, and `" operation "` only in surrounding
whitespace, yet line 111 looks the key up without any normalization, so both
miss the map and select the fallback marketing agent, not the operation
agent. -/
theorem c8_case_variant_falls_back :
    agentsGet "Operation" = none
    ∧ selectAgent "Operation" = Agent.marketing
    ∧ selectAgent "Operation" ≠ Agent.operation
    ∧ agentsGet " operation " = none
    ∧ selectAgent " operation " ≠ Agent.operation := by
  decide

/-- C3 (amended): for every request during which an exception *other than a
`KeyError`* is raised at any step, `process_request` returns the uniform
response `{error: busy message, code: 500, request_id: fresh 32-hex-char
identifier}`; the response is the same whatever the internal exception
message was (detail never echoed), and two failing requests with distinct
fresh seeds receive distinct request ids. -/
theorem c3_nonkeyerror_uniform_response (env : Env) (r : Request) (msg : String)
    (evs : List Event) (s₁ s₂ : Nat)
    (hbody : processBody env r = (Except.error (Exn.other msg), evs))
    (h1 : s₁ < 16 ^ 32) (h2 : s₂ < 16 ^ 32) (hne : s₁ ≠ s₂) :
    (processRequest env s₁ r).1 = busyResponse s₁
    ∧ (uuidHex s₁).length = 32
    ∧ (∀ c ∈ (uuidHex s₁).data, c ∈ "0123456789abcdef".data)
    ∧ (processRequest env s₁ r).1 ≠ (processRequest env s₂ r).1 := by
  have hresp : ∀ s : Nat, (processRequest env s r).1 = busyResponse s := by
    intro s
    unfold processRequest
    rw [hbody]
  refine ⟨hresp s₁, uuidHex_length s₁, uuidHex_chars s₁, ?_⟩
  rw [hresp s₁, hresp s₂]
  intro hcontra
  apply hne
  apply uuidHex_inj s₁ s₂ h1 h2
  simpa [busyResponse] using hcontra

/-- C3 witness: a collaborator raising a generic exception during execution
yields exactly the uniform busy response, and seeds 0 and 1 give distinct
responses. -/
theorem c3_nonkeyerror_uniform_response_witness :
    (processRequest envArunBoom 0 reqMarketing).1 = busyResponse 0
    ∧ (uuidHex 0).length = 32
    ∧ (∀ c ∈ (uuidHex 0).data, c ∈ "0123456789abcdef".data)
    ∧ (processRequest envArunBoom 0 reqMarketing).1
        ≠ (processRequest envArunBoom 1 reqMarketing).1 :=
  c3_nonkeyerror_uniform_response envArunBoom reqMarketing "boom"
    [Event.encodeText "hi", Event.retrieve [1], Event.arun Agent.marketing (arunInput "hi")]
    0 1 (by decide) (by norm_num) (by norm_num) (by norm_num)

/-- C5 (amended): the embedding step attempts exactly one encoding path per
request, keyed on *truthy* fields: a present non-empty `image_url` dispatches
only to the image encoder (priority over `text`); else a present non-empty
`text` dispatches only to the text encoder; else no encoder is invoked and
the result is absent. -/
theorem c5_truthy_dispatch (env : Env) (r : Request) :
    ((generateEmbedding env r).2 =
      match truthyGet "image_url" r with
      | some url => [Event.encodeImage url]
      | none =>
        match truthyGet "text" r with
        | some t => [Event.encodeText t]
        | none => [])
    ∧ (truthyGet "image_url" r = none → truthyGet "text" r = none →
        generateEmbedding env r = (none, [])) := by
  constructor
  · unfold generateEmbedding
    rcases truthyGet "image_url" r with _ | url
    · rcases truthyGet "text" r with _ | t <;> rfl
    · rfl
  · intro h1 h2
    unfold generateEmbedding
    rw [h1, h2]

/-- C5 witness: a request with neither field invokes no encoder and yields an
absent embedding. -/
theorem c5_truthy_dispatch_witness :
    generateEmbedding envOk [] = (none, []) :=
  (c5_truthy_dispatch envOk []).2 rfl rfl

/-- C6: any exception raised by the encoding collaborators is caught inside
`_generate_embedding` and converted to an absent embedding, and an absent
embedding never fails the request: with both encoders raising, the request
still completes with the agent's result. -/
theorem c6_encoder_failure_absorbed (env : Env) (exI exT : String → Exn)
    (hI : ∀ u, env.encodeImage u = Except.error (exI u))
    (hT : ∀ t, env.encodeText t = Except.error (exT t))
    (r : Request) (seed : Nat) (text : String) (res : ResultV)
    (htext : r.lookup "text" = some text)
    (harun : env.arun (selectAgent (agentTypeOf r)) (arunInput text) = Except.ok res)
    (hmetrics : env.recordRouting (routingMatched (agentTypeOf r)) = Except.ok ()) :
    (generateEmbedding env r).1 = none ∧ (processRequest env seed r).1 = res := by
  have hemb : ∃ ev, generateEmbedding env r = (none, ev) := by
    unfold generateEmbedding
    rcases truthyGet "image_url" r with _ | url
    · rcases truthyGet "text" r with _ | t
      · exact ⟨[], rfl⟩
      · refine ⟨[Event.encodeText t], ?_⟩
        simp [hT]
    · refine ⟨[Event.encodeImage url], ?_⟩
      simp [hI]
  obtain ⟨ev, hemb⟩ := hemb
  constructor
  · rw [hemb]
  · unfold processRequest processBody
    rw [hemb]
    simp [htext, harun, hmetrics]

/-- C6 witness: on `{type: "marketing", text: "hi"}` with both encoders
failing, the embedding is absent and the request succeeds with the agent's
result. -/
theorem c6_encoder_failure_absorbed_witness :
    (generateEmbedding envEncFail reqMarketing).1 = none
    ∧ (processRequest envEncFail 0 reqMarketing).1 = okResult :=
  c6_encoder_failure_absorbed envEncFail (fun _ => Exn.other "net") (fun _ => Exn.other "net")
    (fun _ => rfl) (fun _ => rfl) reqMarketing 0 "hi" okResult (by decide) rfl rfl

/-- C7 (amended): for every type key absent from the agent map, selection
returns the default marketing agent rather than failing, and the recorded
flag equals the lower-cased comparison of the key against the fallback's
class name `"marketingagent"` — so it is `false` for all such keys *except*
those that lower-case to `"marketingagent"`; a missing `type` field defaults
to `"marketing"`, selects the marketing agent and records `false`. -/
theorem c7_fallback_selection_and_metric (k : String) (r : Request)
    (hk : agentsGet k = none) :
    selectAgent k = Agent.marketing
    ∧ routingMatched k = (strLower k == "marketingagent")
    ∧ (r.lookup "type" = none →
        selectAgent (agentTypeOf r) = Agent.marketing
        ∧ routingMatched (agentTypeOf r) = false) := by
  have hsel : selectAgent k = Agent.marketing := by
    unfold selectAgent
    rw [hk]
    rfl
  refine ⟨hsel, ?_, ?_⟩
  · unfold routingMatched
    rw [hsel]
    have hcn : strLower (Agent.className Agent.marketing) = "marketingagent" := by decide
    rw [hcn]
  · intro ht
    have hty : agentTypeOf r = "marketing" := by
      unfold agentTypeOf
      rw [ht]
      rfl
    rw [hty]
    exact ⟨by decide, by decide⟩

/-- C7 witness: the unmapped key `"unknown_type"` selects the marketing
agent with `matched = false`, and a request with no `type` field does too. -/
theorem c7_fallback_selection_and_metric_witness :
    (selectAgent "unknown_type" = Agent.marketing
      ∧ routingMatched "unknown_type" = ("unknown_type".data.map lowerChar == "marketingagent".data))
    ∧ (selectAgent (agentTypeOf [("text", "x")]) = Agent.marketing
      ∧ routingMatched (agentTypeOf [("text", "x")]) = false) := by
  have h := c7_fallback_selection_and_metric "unknown_type" [("text", "x")] (by decide)
  exact ⟨⟨h.1, by rw [h.2.1]; decide⟩, h.2.2 rfl⟩

/-- C8 (amended): agent selection applies *no* normalization to the type key
before lookup: a key that equals a mapped key only up to letter case or
surrounding whitespace (shown here for the `operation`/`research` keys, whose
agents differ from the fallback) misses the map and selects the fallback
marketing agent instead of the mapped agent; only the metric comparison of
line 128 lower-cases the key. -/
theorem c8_no_key_normalization (k : String)
    (hvariant : strLower (strStrip k) = "operation" ∨ strLower (strStrip k) = "research")
    (hne₁ : k ≠ "operation") (hne₂ : k ≠ "research") :
    selectAgent k = Agent.marketing := by
  have hm : k ≠ "marketing" := by
    intro h
    subst h
    rcases hvariant with h | h <;> revert h <;> decide
  unfold selectAgent agentsGet
  rw [if_neg hm, if_neg hne₁, if_neg hne₂]
  rfl

/-- C8 witness: `"Operation"` is a case variant of the mapped key
`"operation"` and selects the fallback marketing agent. -/
theorem c8_no_key_normalization_witness :
    selectAgent "Operation" = Agent.marketing :=
  c8_no_key_normalization "Operation" (Or.inl (by decide)) (by decide) (by decide)

/-- C10: `process_request` reads the inbound request only through its
`image_url`, `text` and `type` fields (and, being modelled as a pure
function over an immutable mapping, mutates nothing): two requests agreeing
on those three fields produce identical responses and identical collaborator
invocations. -/
theorem c10_reads_only_routing_fields (env : Env) (seed : Nat) (r₁ r₂ : Request)
    (himg : r₁.lookup "image_url" = r₂.lookup "image_url")
    (htext : r₁.lookup "text" = r₂.lookup "text")
    (htype : r₁.lookup "type" = r₂.lookup "type") :
    processRequest env seed r₁ = processRequest env seed r₂ := by
  have hg : generateEmbedding env r₁ = generateEmbedding env r₂ := by
    unfold generateEmbedding truthyGet
    rw [himg, htext]
  have ha : agentTypeOf r₁ = agentTypeOf r₂ := by
    unfold agentTypeOf
    rw [htype]
  unfold processRequest processBody
  rw [hg, ha, htext]

/-- C10 witness: two requests differing only in a field `process_request`
never reads (`extra`) are processed identically. -/
theorem c10_reads_only_routing_fields_witness :
    processRequest envOk 0 [("text", "hi"), ("extra", "a")]
      = processRequest envOk 0 [("extra", "b"), ("text", "hi")] :=
  c10_reads_only_routing_fields envOk 0 _ _ (by decide) (by decide) (by decide)

/-- C9: the Memory Pool `store` is invoked exactly when an embedding was
produced (line 121 tests `is not None`) and the execution returned a
non-empty result, with the payload `{query: request["text"], result}`; the
equivalence also records that the pipeline must have passed the memory-join
step (an empty embedding skips `retrieve`; a non-empty one requires
`retrieve` to have succeeded, otherwise processing aborted earlier). -/
theorem c9_store_exactly_on_nonempty_result (env : Env) (seed : Nat) (r : Request)
    (e : Embedding) (q : String) (res : ResultV) :
    Event.store e q res ∈ (processRequest env seed r).2 ↔
      ((generateEmbedding env r).1 = some e
        ∧ (e = [] ∨ ∃ m, env.retrieve e = Except.ok m)
        ∧ r.lookup "text" = some q
        ∧ env.arun (selectAgent (agentTypeOf r)) (arunInput q) = Except.ok res
        ∧ res ≠ []) := by
  rw [processRequest_events]
  obtain ⟨emb, ev1, hge⟩ : ∃ a b, generateEmbedding env r = (a, b) := ⟨_, _, rfl⟩
  have hnos : Event.store e q res ∉ ev1 := by
    have h0 := generateEmbedding_no_store env r e q res
    rw [hge] at h0
    exact h0
  unfold processBody
  rw [hge]
  dsimp only
  constructor
  · intro hmem
    rcases emb with _ | e0
    · -- embedding absent: line 121 skips the store
      exfalso
      rcases ht : r.lookup "text" with _ | q0 <;> rw [ht] at hmem <;> dsimp only at hmem
      · simp [hnos] at hmem
      · rcases ha : env.arun (selectAgent (agentTypeOf r)) (arunInput q0) with aex | ares
          <;> rw [ha] at hmem <;> dsimp only at hmem
        · simp [hnos] at hmem
        · rcases hm : env.recordRouting (routingMatched (agentTypeOf r)) with mex | mok
            <;> rw [hm] at hmem <;> simp [hnos] at hmem
    · -- embedding present
      rcases e0 with _ | ⟨x, xs⟩ <;> dsimp only at hmem
      · -- empty embedding: retrieve skipped (line 106 truthiness) but the
        -- store guard of line 121 only tests `is not None`
        rcases ht : r.lookup "text" with _ | q0 <;> rw [ht] at hmem <;> dsimp only at hmem
        · exact absurd hmem (by simp [hnos])
        · rcases ha : env.arun (selectAgent (agentTypeOf r)) (arunInput q0) with aex | ares
            <;> rw [ha] at hmem <;> dsimp only at hmem
          · exact absurd hmem (by simp [hnos])
          · rcases ares with _ | ⟨p, ps⟩ <;> dsimp only at hmem
            · rcases hm : env.recordRouting (routingMatched (agentTypeOf r)) with mex | mok
                <;> rw [hm] at hmem <;> simp [hnos] at hmem
            · have hkey : e = [] ∧ q = q0 ∧ res = p :: ps := by
                rcases hs : env.store [] q0 (p :: ps) with sex | sok
                  <;> rw [hs] at hmem <;> dsimp only at hmem
                · simpa [hnos] using hmem
                · rcases hm : env.recordRouting (routingMatched (agentTypeOf r)) with mex | mok
                    <;> rw [hm] at hmem <;> simpa [hnos] using hmem
              obtain ⟨he, hq, hres⟩ := hkey
              subst he
              subst hq
              subst hres
              exact ⟨rfl, Or.inl rfl, rfl, ha, by simp⟩
      · -- non-empty embedding: retrieve must have succeeded first
        rcases hr : env.retrieve (x :: xs) with rex | rm <;> rw [hr] at hmem <;> dsimp only at hmem
        · exact absurd hmem (by simp [hnos])
        · rcases ht : r.lookup "text" with _ | q0 <;> rw [ht] at hmem <;> dsimp only at hmem
          · exact absurd hmem (by simp [hnos])
          · rcases ha : env.arun (selectAgent (agentTypeOf r)) (arunInput q0) with aex | ares
              <;> rw [ha] at hmem <;> dsimp only at hmem
            · exact absurd hmem (by simp [hnos])
            · rcases ares with _ | ⟨p, ps⟩ <;> dsimp only at hmem
              · rcases hm : env.recordRouting (routingMatched (agentTypeOf r)) with mex | mok
                  <;> rw [hm] at hmem <;> simp [hnos] at hmem
              · have hkey : e = x :: xs ∧ q = q0 ∧ res = p :: ps := by
                  rcases hs : env.store (x :: xs) q0 (p :: ps) with sex | sok
                    <;> rw [hs] at hmem <;> dsimp only at hmem
                  · simpa [hnos] using hmem
                  · rcases hm : env.recordRouting (routingMatched (agentTypeOf r)) with mex | mok
                      <;> rw [hm] at hmem <;> simpa [hnos] using hmem
                obtain ⟨he, hq, hres⟩ := hkey
                subst he
                subst hq
                subst hres
                exact ⟨rfl, Or.inr ⟨rm, hr⟩, rfl, ha, by simp⟩
  · rintro ⟨h1, h2, h3, h4, h5⟩
    subst h1
    rw [h3]
    dsimp only
    rcases res with _ | ⟨p, ps⟩
    · exact absurd rfl h5
    · rcases e with _ | ⟨x, xs⟩
      · -- empty embedding: retrieve skipped but store still happens
        rw [h4]
        dsimp only
        rcases hs : env.store [] q (p :: ps) with sex | sok <;> dsimp only
        · simp
        · rcases hm : env.recordRouting (routingMatched (agentTypeOf r)) with mex | mok <;> simp
      · dsimp only
        rcases h2 with h2 | ⟨m, hm2⟩
        · exact absurd h2 (by simp)
        · rw [hm2]
          dsimp only
          rw [h4]
          dsimp only
          rcases hs : env.store (x :: xs) q (p :: ps) with sex | sok <;> dsimp only
          · simp
          · rcases hm : env.recordRouting (routingMatched (agentTypeOf r)) with mex | mok <;> simp

/-- C9 witness: on `{type: "marketing", text: "hi"}` with succeeding
collaborators, the store is invoked with the embedding, the query text and
the non-empty result. -/
theorem c9_store_exactly_on_nonempty_result_witness :
    Event.store [1] "hi" okResult ∈ (processRequest envOk 0 reqMarketing).2 :=
  (c9_store_exactly_on_nonempty_result envOk 0 reqMarketing [1] "hi" okResult).mpr
    ⟨by decide, Or.inr ⟨[[("past", "p")]], rfl⟩, by decide, rfl, by decide⟩

end RoutingCore
